import Mathlib

/-!
Verification of the HomeEase `brightdata` product-scraping pipeline.

Shallow embedding of the Python sources:
  * `src/brightdata/product_filter.py`  (ProductFilterService)
  * `src/brightdata/brightdata_service.py` (BrightDataService)
  * `src/brightdata/mock_service.py`   (MockDataService)
  * `src/brightdata/main.py`           (the `/scrape` orchestrator)

JSON-decoded Python values are modelled by the inductive type `Val`
(null / bool / number / string / list / dict).  Python floats are modelled
by `ℚ`; IEEE specials (`inf`, `nan`) and exotic numeric literal forms
(exponents, underscores, non-ASCII digits) are outside the embedding and
are noted where relevant.  Dicts are association lists whose keys are
looked up by first match, matching Python dict semantics for records
decoded from JSON (which cannot carry duplicate keys).
-/

namespace HomeEase

/-- A JSON-decoded Python value, as produced by `response.json()`. -/
inductive Val where
  | vnull : Val
  | vbool : Bool → Val
  | vnum  : ℚ → Val
  | vstr  : String → Val
  | varr  : List Val → Val
  | vobj  : List (String × Val) → Val

open Val

/-- Python truthiness (`bool(v)`) for the modelled values. -/
def truthy : Val → Bool
  | vnull   => false
  | vbool b => b
  | vnum q  => q ≠ 0
  | vstr s  => s ≠ ""
  | varr l  => !l.isEmpty
  | vobj l  => !l.isEmpty

/-- `item.get(k, d)`: value stored under the first matching key, else `d`. -/
def getD (item : List (String × Val)) (k : String) (d : Val) : Val :=
  match item.find? (fun kv => kv.1 = k) with
  | some kv => kv.2
  | none    => d

/-- `k in item` for a dict: key presence. -/
def hasKey (item : List (String × Val)) (k : String) : Bool :=
  (item.find? (fun kv => kv.1 = k)).isSome

/-- Numeric value of a digit string (most significant first). -/
def digitsVal (ds : List Char) : ℕ :=
  ds.foldl (fun a c => a * 10 + (c.toNat - 48)) 0

/-- Strip leading and trailing whitespace from a character list
(Python's implicit stripping in `float(s)` / `int(s)`). -/
def charTrim (l : List Char) : List Char :=
  ((l.dropWhile Char.isWhitespace).reverse.dropWhile Char.isWhitespace).reverse

/-- Python `float(s)` on a decimal string: optional surrounding whitespace,
optional sign, digits with at most one `.` (at least one digit overall).
Exponent forms, `inf`/`nan` and underscore separators are outside this
embedding; no string reaching this function in the verified claims uses
them.  Returns `none` where Python raises `ValueError`. -/
def pyFloat? (s : String) : Option ℚ :=
  let cs := charTrim s.toList
  let (sign, cs1) : ℤ × List Char :=
    match cs with
    | '+' :: r => (1, r)
    | '-' :: r => (-1, r)
    | r        => (1, r)
  let d1 := cs1.takeWhile Char.isDigit
  let rest := cs1.dropWhile Char.isDigit
  match rest with
  | [] =>
      if d1.isEmpty then none
      else some (mkRat (sign * (digitsVal d1 : ℤ)) 1)
  | '.' :: rest2 =>
      let d2 := rest2.takeWhile Char.isDigit
      let rest3 := rest2.dropWhile Char.isDigit
      if rest3.isEmpty && !(d1.isEmpty && d2.isEmpty) then
        some (mkRat (sign * (digitsVal (d1 ++ d2) : ℤ)) (10 ^ d2.length))
      else none
  | _ => none

/-- Python `int(s)`: optional surrounding whitespace, optional sign,
decimal digits only.  Returns `none` where Python raises `ValueError`. -/
def pyInt? (s : String) : Option ℤ :=
  let cs := charTrim s.toList
  let (sign, cs1) : ℤ × List Char :=
    match cs with
    | '+' :: r => (1, r)
    | '-' :: r => (-1, r)
    | r        => (1, r)
  if cs1.isEmpty || !cs1.all Char.isDigit then none
  else some (sign * (digitsVal cs1 : ℤ))

/-- Worker for `pySplitWs`; `acc` holds the current token, reversed. -/
def wsTokensGo : List Char → List Char → List String
  | [], acc => if acc.isEmpty then [] else [String.mk acc.reverse]
  | c :: rest, acc =>
    if c.isWhitespace then
      (if acc.isEmpty then [] else [String.mk acc.reverse]) ++ wsTokensGo rest []
    else wsTokensGo rest (c :: acc)

/-- Python `s.split()`: split on whitespace, dropping empty fragments. -/
def pySplitWs (s : String) : List String :=
  wsTokensGo s.toList []

/-!
## 4.1  PriceParser — `ProductFilterService._extract_price_value`
(src/brightdata/product_filter.py lines 51-67)
-/

/-- `re.sub(r'[^\d.,]', '', price_str)`: keep digits, commas and periods. -/
def cleanPrice (s : String) : List Char :=
  s.toList.filter (fun c => c.isDigit || c = ',' || c = '.')

/-- `ProductFilterService._extract_price_value`.  `if not price_str` is the
Python falsy test on a string, i.e. emptiness.  String operations from the
source are carried out on the character list: `'x' in s` is `List.contains`,
`s.replace(',','')` is a filter, `s.replace(',','.')` is a map, and the
length of `s.split(',')[-1]` is the length of the suffix after the last
comma.  The final `float(...)` call is `pyFloat?`, which fails exactly where
Python raises `ValueError` on the cleaned (digits/comma/period) string. -/
def extract_price_value (price_str : String) : Option ℚ :=
  if price_str = "" then none
  else
    let price_clean := cleanPrice price_str
    let price_clean :=
      if price_clean.contains ',' && price_clean.contains '.' then
        price_clean.filter (fun c => c ≠ ',')
      else if price_clean.contains ',' &&
          (price_clean.reverse.takeWhile (fun c => c ≠ ',')).length ≤ 2 then
        price_clean.map (fun c => if c = ',' then '.' else c)
      else price_clean
    pyFloat? (String.mk price_clean)

example : extract_price_value "$45.99" = some (mkRat 4599 100) := by decide
example : extract_price_value "1,234.56" = some (mkRat 123456 100) := by decide
example : extract_price_value "18,75" = some (mkRat 1875 100) := by decide
example : extract_price_value "" = none := by decide
example : extract_price_value "1,234" = none := by decide
example : mkRat 4599 100 = (4599 : ℚ) / 100 := by norm_num [mkRat]
example : mkRat 4599 100 = (45.99 : ℚ) := by norm_num [mkRat]

/-!
## 3  Data model — `models.Product`
(src/brightdata/models.py lines 5-13)
-/

/-- `models.Product` (pydantic).  `rating : float` is modelled by `ℚ`;
the three `Optional` fields keep their optionality. -/
structure Product where
  title : String
  link : String
  image : String
  price : String
  rating : ℚ
  review_count : Option ℤ
  availability : Option String
  asin : Option String
deriving DecidableEq

/-!
## 4.2  RecordNormalizer — `BrightDataService._extract_product_data`
(src/brightdata/brightdata_service.py lines 177-236)

The whole body runs inside `try: ... except Exception: return None`, so an
uncaught coercion error and the explicit `return None` for a falsy
title/link both surface as `none`.  The helper coercions below return
`none` exactly where the Python expression raises.
-/

/-- The `image` fallback chain: `item.get(k, None)` per key, moving on when
the value is falsy, with `''` as the final default. -/
def firstTruthy (f : List (String × Val)) : List String → Val
  | [] => vstr ""
  | k :: ks =>
    let v := getD f k vnull
    if truthy v then v else firstTruthy f ks

/-- `rating` coercion.  For text: `float(rating_raw.split()[0])` inside its
own `try`, defaulting to `0.0` (an `IndexError` on an all-whitespace string
and a `ValueError` both default).  Otherwise `float(rating_raw) if
rating_raw else 0.0`, which is uncaught: `float` of a (truthy) list or dict
raises `TypeError`, yielding `none`. -/
def ratingOfRaw : Val → Option ℚ
  | vstr s =>
      some (match (pySplitWs s).head? with
            | none => 0
            | some t => (pyFloat? t).getD 0)
  | v =>
    if truthy v then
      match v with
      | vnum q  => some q
      | vbool _ => some 1
      | _       => none
    else some 0

/-- `review_count` coercion.  For text:
`int(review_count.replace(',', '').split()[0])` inside its own `try`,
defaulting to `0`.  Any other value is handed to the pydantic
`Optional[int]` field unchanged: `None` and integral numbers are accepted;
lists and dicts are rejected; booleans and non-integral floats are
pydantic-version-dependent and are modelled as rejection (no verified claim
exercises them). -/
def reviewOfRaw : Val → Option (Option ℤ)
  | vstr s =>
      some (some
        (match (pySplitWs (String.mk (s.toList.filter (fun c => c ≠ ',')))).head? with
         | none => 0
         | some t => (pyInt? t).getD 0))
  | vnull => some none
  | vnum q => if q.den = 1 then some (some q.num) else none
  | _ => none

/-- Coercion into a required pydantic `str` field: strings pass through;
`None`, lists and dicts are rejected by every pydantic version; numeric
values are version-dependent and are modelled as rejection (no verified
claim exercises them). -/
def coerceStr : Val → Option String
  | vstr s => some s
  | _ => none

/-- Coercion into a pydantic `Optional[str]` field: `None` and strings are
accepted; other values as in `coerceStr`. -/
def coerceOptStr : Val → Option (Option String)
  | vnull => some none
  | vstr s => some (some s)
  | _ => none

/-- `item.get('title', item.get('name', ''))`. -/
def resTitle (f : List (String × Val)) : Val :=
  getD f "title" (getD f "name" (vstr ""))

/-- `item.get('url', item.get('link', item.get('product_link', '')))`. -/
def resLink (f : List (String × Val)) : Val :=
  getD f "url" (getD f "link" (getD f "product_link" (vstr "")))

/-- The `image` fallback chain over its five candidate keys. -/
def resImage (f : List (String × Val)) : Val :=
  firstTruthy f ["image", "image_url", "thumbnail", "product_image", "img"]

/-- `item.get('price', item.get('price_text', ''))`. -/
def resPrice (f : List (String × Val)) : Val :=
  getD f "price" (getD f "price_text" (vstr ""))

/-- `item.get('rating', item.get('stars', 0))`. -/
def resRating (f : List (String × Val)) : Val :=
  getD f "rating" (getD f "stars" (vnum 0))

/-- `item.get('review_count', item.get('reviews', 0))`. -/
def resReview (f : List (String × Val)) : Val :=
  getD f "review_count" (getD f "reviews" (vnum 0))

/-- `item.get('asin', item.get('product_id', ''))`. -/
def resAsin (f : List (String × Val)) : Val :=
  getD f "asin" (getD f "product_id" (vstr ""))

/-- `item.get('availability', item.get('in_stock', 'Unknown'))`. -/
def resAvail (f : List (String × Val)) : Val :=
  getD f "availability" (getD f "in_stock" (vstr "Unknown"))

/-- `BrightDataService._extract_product_data`.  A non-dict `item` raises
`AttributeError` at the first `.get`, caught by the enclosing `except`.
Field lookups, coercions and the falsy title/link rejection follow the
source line by line; the final `Product(...)` construction applies the
pydantic field coercions. -/
def extract_product_data : Val → Option Product
  | vobj f =>
    match ratingOfRaw (resRating f) with
    | none => none
    | some rating =>
      match reviewOfRaw (resReview f) with
      | none => none
      | some review_count =>
        if !truthy (resTitle f) || !truthy (resLink f) then none
        else
          match coerceStr (resTitle f), coerceStr (resLink f), coerceStr (resImage f),
                coerceStr (resPrice f), coerceOptStr (resAvail f), coerceOptStr (resAsin f) with
          | some t, some l, some img, some pr, some av, some an =>
              some ⟨t, l, img, pr, rating, review_count, av, an⟩
          | _, _, _, _, _, _ => none
  | _ => none

example :
    extract_product_data (vobj [("title", vstr "X"), ("url", vstr "Y")]) =
      some ⟨"X", "Y", "", "", 0, some 0, some "Unknown", some ""⟩ := by decide

example :
    extract_product_data (vobj [("title", vstr "X"), ("url", vstr "Y"),
      ("rating", varr [vnum 1])]) = none := by decide

example :
    extract_product_data (vobj [("title", vstr "X"), ("url", vstr "Y"),
      ("rating", vstr "4.5 out of 5 stars"), ("review_count", vstr "1,234 ratings")]) =
      some ⟨"X", "Y", "", "", mkRat 45 10, some 1234, some "Unknown", some ""⟩ := by decide

example : extract_product_data (vobj []) = none := by decide

/-!
## 4.3  ResultExtractor — payload walking shared by
`BrightDataService.parse_products` (brightdata_service.py lines 132-175)
and `MockDataService.parse_products` (mock_service.py lines 64-103).
-/

/-- Python `for x in v`: the sequence iterated over, or `none` when `v` is
not iterable (`TypeError`).  Iterating a dict yields its keys; iterating a
string yields its characters as 1-character strings. -/
def iterItems : Val → Option (List Val)
  | varr l => some l
  | vobj f => some (f.map (fun kv => vstr kv.1))
  | vstr s => some (s.toList.map (fun c => vstr (String.mk [c])))
  | _ => none

/-- Python `key in v` (`in` on a decoded JSON value): key membership for a
dict, element equality for a list, substring test for a string, and
`TypeError` (`none`) otherwise. -/
def pyContains (v : Val) (key : String) : Option Bool :=
  match v with
  | vobj f => some (hasKey f key)
  | varr l => some (l.any (fun e => match e with
      | vstr s => s = key
      | _ => false))
  | vstr s => some ((s.toList.tails).any (fun t => key.toList.isPrefixOf t))
  | _ => none

/-- One keyword entry of the grouping collection: a dict with a `results`
collection uses it, a bare list is itself the record collection, anything
else is skipped (`continue`).  A non-iterable `results` value raises
`TypeError` out of the entry loop (`none`), which the enclosing `try` of
the calling parser turns into an empty overall result. -/
def entriesGoWith (itemF : Val → Option Product) :
    List Val → List Product → Option (List Product)
  | [], acc => some acc
  | kd :: rest, acc =>
    match kd with
    | vobj f =>
      if hasKey f "results" then
        match iterItems (getD f "results" vnull) with
        | some items => entriesGoWith itemF rest (acc ++ items.filterMap itemF)
        | none => none
      else entriesGoWith itemF rest acc
    | varr l => entriesGoWith itemF rest (acc ++ l.filterMap itemF)
    | _ => entriesGoWith itemF rest acc

/-- `BrightDataService.parse_products`.  The `'snapshot_id' in raw_data`
check sits outside the `try`, so a `TypeError` there (non-container
payload) propagates to the caller: that is the outer `none`.  Everything
after the check is inside `try: ... except Exception: return []`, so an
indexing or iteration error yields `some []`. -/
def parse_products (raw_data : Val) : Option (List Product) :=
  match pyContains raw_data "snapshot_id" with
  | none => none
  | some true => some []
  | some false =>
    match raw_data with
    | vobj f =>
      if hasKey f "data" then
        match iterItems (getD f "data" vnull) with
        | some entries => some ((entriesGoWith extract_product_data entries []).getD [])
        | none => some []
      else some []
    | _ => some []

/-!
## Fallback source — `MockDataService`
(src/brightdata/mock_service.py)
-/

/-- The three statically-defined sample records (mock_service.py 10-41). -/
def mock_products : List Val := [
  vobj [("title", vstr "Professional Tap and Die Set - 40 Piece"),
        ("url", vstr "https://www.amazon.com/dp/B08CVSLHQD"),
        ("image", vstr "https://images-na.ssl-images-amazon.com/images/I/61YVz1vKJZL._AC_SL1500_.jpg"),
        ("price", vstr "$45.99"),
        ("rating", vnum (mkRat 45 10)),
        ("review_count", vnum 1234),
        ("asin", vstr "B08CVSLHQD"),
        ("availability", vstr "In Stock")],
  vobj [("title", vstr "Crescent Adjustable Wrench Set"),
        ("url", vstr "https://www.amazon.com/dp/B07ZBXXF6H"),
        ("image", vstr "https://images-na.ssl-images-amazon.com/images/I/81Yqy5Xs8XL._AC_SL1500_.jpg"),
        ("price", vstr "$32.50"),
        ("rating", vnum (mkRat 43 10)),
        ("review_count", vnum 856),
        ("asin", vstr "B07ZBXXF6H"),
        ("availability", vstr "In Stock")],
  vobj [("title", vstr "Precision Tap Wrench with Comfort Grip"),
        ("url", vstr "https://www.amazon.com/dp/B00BCP7KHQ"),
        ("image", vstr "https://images-na.ssl-images-amazon.com/images/I/71T5R7YyHXL._AC_SL1500_.jpg"),
        ("price", vstr "$18.75"),
        ("rating", vnum (mkRat 47 10)),
        ("review_count", vnum 2341),
        ("asin", vstr "B00BCP7KHQ"),
        ("availability", vstr "In Stock")]]

/-- `product["title"]` for the static records (always a string there). -/
def titleStr (v : Val) : String :=
  match v with
  | vobj f => match getD f "title" vnull with
    | vstr s => s
    | _ => ""
  | _ => ""

/-- ASCII lower-casing of one character (`str.lower()`; every string this
model lower-cases — the static titles and the search keywords of the
claims — is ASCII). -/
def charLower (c : Char) : Char :=
  if 65 ≤ c.toNat && c.toNat ≤ 90 then Char.ofNat (c.toNat + 32) else c

/-- Case-insensitive substring test `keyword.lower() in title.lower()`. -/
def lowerContains (needle hay : String) : Bool :=
  ((hay.toList.map charLower).tails).any
    (fun t => (needle.toList.map charLower).isPrefixOf t)

/-- `MockDataService.search_products`: keep the static records whose title
contains one of the keywords (case-insensitive); if none match, fall back
to all of them; wrap in the `{"data": [{"keyword": ..., "results": ...}]}`
shape. -/
def mock_search_products (keywords : List String) : Val :=
  let filtered := mock_products.filter
    (fun p => keywords.any (fun kw => lowerContains kw (titleStr p)))
  let filtered := if filtered.isEmpty then mock_products else filtered
  vobj [("data", varr [
    vobj [("keyword", vstr (keywords.headD "test")),
          ("results", varr filtered)]])]

/-- Coercion into the pydantic `Optional[int]` field when the raw value is
passed through unchanged (the mock parser does no coercion of its own):
`None`, integral numbers and digit strings are accepted; lists and dicts
are rejected; booleans and non-integral floats are pydantic-version-
dependent and are modelled as rejection (no verified claim uses them). -/
def coerceOptInt : Val → Option (Option ℤ)
  | vnull => some none
  | vnum q => if q.den = 1 then some (some q.num) else none
  | vstr s => match pyInt? s with
    | some n => some (some n)
    | none => none
  | _ => none

/-- The per-record constructor of `MockDataService.parse_products` (its
`try: Product(...) except: continue` body).  `float(item.get('rating', 0))`
has no string tokenisation here: a plain `float(...)` on the value, raising
(hence skipping the record) for `None`, lists, dicts and unparseable
strings. -/
def mock_item_product : Val → Option Product
  | vobj f =>
    let ratingRaw := getD f "rating" (vnum 0)
    let rating? : Option ℚ :=
      match ratingRaw with
      | vstr s => pyFloat? s
      | vnum q => some q
      | vbool b => some (if b then 1 else 0)
      | _ => none
    match rating? with
    | none => none
    | some rating =>
      match coerceStr (getD f "title" (vstr "")), coerceStr (getD f "url" (vstr "")),
            coerceStr (getD f "image" (vstr "")), coerceStr (getD f "price" (vstr "")),
            coerceOptInt (getD f "review_count" (vnum 0)),
            coerceOptStr (getD f "availability" (vstr "Unknown")),
            coerceOptStr (getD f "asin" (vstr "")) with
      | some t, some l, some img, some pr, some rc, some av, some an =>
          some ⟨t, l, img, pr, rating, rc, av, an⟩
      | _, _, _, _, _, _, _ => none
  | _ => none

/-- `MockDataService.parse_products`.  Everything, including the
`'data' in raw_data` test, is inside `try: ... except Exception: return []`,
so every uncaught error yields `[]`. -/
def mock_parse_products (raw_data : Val) : List Product :=
  match pyContains raw_data "data" with
  | none => []
  | some true =>
    match raw_data with
    | vobj f =>
      match iterItems (getD f "data" vnull) with
      | some entries => (entriesGoWith mock_item_product entries []).getD []
      | none => []
    | _ => []
  | some false =>
    match iterItems raw_data with
    | some entries => (entriesGoWith mock_item_product entries []).getD []
    | none => []

/-!
## 4.6  FilterRankEngine — `ProductFilterService.filter_and_rank_products`
(src/brightdata/product_filter.py lines 14-49)
-/

/-- `x or default` for an optional float argument: `None` and `0.0` are both
falsy and are replaced by the default. -/
def resolveQ (x : Option ℚ) (d : ℚ) : ℚ :=
  match x with
  | none => d
  | some v => if v = 0 then d else v

/-- `x or default` for an optional int argument. -/
def resolveZ (x : Option ℤ) (d : ℤ) : ℤ :=
  match x with
  | none => d
  | some v => if v = 0 then d else v

/-- The second sort-key component
`self._extract_price_value(p.price) or float('inf')`: `none` stands for
`inf`, reached both when the parse fails (`None`) and when the parsed
price is the falsy `0.0`. -/
def sortPriceKey (p : Product) : Option ℚ :=
  match extract_price_value p.price with
  | none => none
  | some v => if v = 0 then none else some v

/-- Order on the key component of `sortPriceKey` (`none` = `inf`). -/
def pkLE : Option ℚ → Option ℚ → Bool
  | _, none => true
  | none, some _ => false
  | some x, some y => decide (x ≤ y)

/-- The comparison realised by `sorted(..., key=lambda p: (-p.rating,
_extract_price_value(p.price) or float('inf')))`: lexicographic on
(rating descending, price key ascending). -/
def prodLE (a b : Product) : Bool :=
  decide (b.rating < a.rating) ||
    (decide (a.rating = b.rating) && pkLE (sortPriceKey a) (sortPriceKey b))

/-- `prodLE` as a relation, for use with the stable sort. -/
def prodRel (a b : Product) : Prop := prodLE a b = true

instance : DecidableRel prodRel :=
  fun a b => inferInstanceAs (Decidable (prodLE a b = true))

/-- Python list slicing `l[:n]`, which clamps from the end when `n` is
negative. -/
def pySlice (l : List Product) (n : ℤ) : List Product :=
  if 0 ≤ n then l.take n.toNat else l.take (l.length - (-n).toNat)

/-- The rating-threshold filter `product.rating >= min_rating`. -/
def ratingPred (min_rating : ℚ) (p : Product) : Bool :=
  decide (min_rating ≤ p.rating)

/-- The price filter `price_value is not None and price_value <= max_price`:
products with an unparseable price are dropped. -/
def pricePred (max_price : ℚ) (p : Product) : Bool :=
  match extract_price_value p.price with
  | some v => decide (v ≤ max_price)
  | none => false

/-- `ProductFilterService.filter_and_rank_products`.  Defaults 4.0 / 100.0
/ 5 are the `ProductFilterService.__init__` constants.  CPython `sorted` is
a stable sort; every stable sort with respect to the same total preorder
produces the same list, so it is modelled by `List.insertionSort` (which
Mathlib proves stable and which the kernel can evaluate) under the key
comparison `prodRel`. -/
def filter_and_rank_products (products : List Product)
    (min_rating : Option ℚ) (max_price : Option ℚ) (limit : Option ℤ) :
    List Product :=
  if products.isEmpty then []
  else
    let min_rating := resolveQ min_rating 4
    let max_price := resolveQ max_price 100
    let limit := resolveZ limit 5
    let filtered_by_rating := products.filter (ratingPred min_rating)
    let filtered_by_price := filtered_by_rating.filter (pricePred max_price)
    let sorted_products := List.insertionSort prodRel filtered_by_price
    pySlice sorted_products limit

/-!
## 4.5  SnapshotPoller — `BrightDataService._poll_snapshot`
(src/brightdata/brightdata_service.py lines 78-130)
-/

/-- What one status query yields: a transport-level error (any raising
path: connection failure, per-request timeout, JSON decode error), or an
HTTP status code with a decoded body. -/
inductive PollObs where
  | transport : PollObs
  | http : ℕ → Val → PollObs

def max_attempts : ℕ := 30
def poll_interval : ℕ := 5

/-- The terminal test of one poll iteration: HTTP 200 and
`data.get('status', 'unknown')` a string in `['ready','complete','done']`
returns the body.  Every other observation continues after a sleep — in
particular a body status in `['failed','error']`: the
`raise Exception(f"Snapshot failed ...")` on that branch is raised inside
the same `try` whose blanket `except Exception` logs and sleeps, so the
failure never escapes the loop (this is the behaviour verified, see the
C2 theorem).  A non-dict body raises `AttributeError` at `.get`, likewise
caught. -/
def obsReadyBody (o : PollObs) : Option Val :=
  match o with
  | .http 200 body =>
    match body with
    | vobj f =>
      match getD f "status" (vstr "unknown") with
      | vstr s => if ["ready", "complete", "done"].contains s then some body else none
      | _ => none
    | _ => none
  | _ => none

/-- An observation whose body status is `failed`/`error` (HTTP 200). -/
def obsFailed (o : PollObs) : Bool :=
  match o with
  | .http 200 (vobj f) =>
    match getD f "status" (vstr "unknown") with
    | vstr s => ["failed", "error"].contains s
    | _ => false
  | _ => false

/-- Result of the polling loop: the ready body (or `none` when the attempt
ceiling was exhausted and `Exception("Timeout waiting for snapshot to
complete")` is raised), the number of status queries issued, and the total
time spent in `asyncio.sleep`. -/
structure PollRes where
  readyBody : Option Val
  queries : ℕ
  sleepTime : ℕ

/-- The `for attempt in range(1, max_attempts + 1)` loop, with `remaining`
iterations left, counting queries and sleep time. -/
def pollFrom (query : ℕ → PollObs) : ℕ → ℕ → ℕ → ℕ → PollRes
  | 0, _, q, s => ⟨none, q, s⟩
  | r + 1, attempt, q, s =>
    match obsReadyBody (query attempt) with
    | some body => ⟨some body, q + 1, s⟩
    | none => pollFrom query r (attempt + 1) (q + 1) (s + poll_interval)

/-- `BrightDataService._poll_snapshot`, abstracted over what the `attempt`-th
status query observes. -/
def poll_snapshot (query : ℕ → PollObs) : PollRes :=
  pollFrom query max_attempts 1 0 0

/-!
## 4.4  JobSubmitter — `BrightDataService.search_products` classification,
combined with the `snapshot_id` dispatch of the `/scrape` handler
(brightdata_service.py lines 50-76, main.py lines 95-109)
-/

/-- The backend's reply to the submit request: a transport timeout, or an
HTTP status code with decoded body. -/
inductive SubmitReply where
  | timeout : SubmitReply
  | http : ℕ → Val → SubmitReply

/-- How the orchestrator ends up classifying the submit reply. -/
inductive SubmitOutcome where
  | deferred : Val → SubmitOutcome
  | syncResult : Val → SubmitOutcome
  | failTimeout : SubmitOutcome
  | failBackend : ℕ → SubmitOutcome
  | failParse : SubmitOutcome

/-- Submit classification.  `search_products` accepts exactly status 200
and 202 (`response.status_code in [200, 202]`); any other status raises a
classified backend error, and `httpx.TimeoutException` raises the timeout
error.  On 200/202, `result.get('snapshot_id')` raises `AttributeError`
for a non-dict body (re-raised: `failParse`); otherwise the `/scrape`
handler treats the reply as deferred exactly when the `snapshot_id` key is
present (`isinstance(raw_data, dict) and 'snapshot_id' in raw_data`), with
the stored value as the handle, and as a synchronous result otherwise. -/
def submit_classify : SubmitReply → SubmitOutcome
  | .timeout => .failTimeout
  | .http code body =>
    if code = 200 ∨ code = 202 then
      match body with
      | vobj f =>
        if hasKey f "snapshot_id" then .deferred (getD f "snapshot_id" vnull)
        else .syncResult body
      | _ => .failParse
    else .failBackend code

/-- The submit step raised a classified error (transport timeout,
non-success status, or parse failure). -/
def isClassifiedError : SubmitOutcome → Bool
  | .failTimeout => true
  | .failBackend _ => true
  | .failParse => true
  | _ => false

/-!
## 4.7  ScrapeOrchestrator — the `/scrape` handler `scrape_products`
(src/brightdata/main.py lines 60-142)
-/

/-- `models.ScrapeRequest`. -/
structure ScrapeReq where
  keywords : List String
  min_rating : Option ℚ
  max_price : Option ℚ
  limit : Option ℤ

/-- What the handler returns: an `HTTPException` (validation or total
failure), the deferred-job payload, or a success payload with the filtered
products and `total_found`. -/
inductive ScrapeOutcome where
  | httpError : ℕ → String → ScrapeOutcome
  | processing : Val → List String → ScrapeOutcome
  | success : List Product → ℕ → List String → ScrapeOutcome

/-- The fallback ("Bright Data API failed ... using mock data") branch:
mock search, mock parse, then the same filter/rank stage. -/
def scrape_fallback (keywords : List String)
    (min_rating max_price : ℚ) (limit : ℤ) : ScrapeOutcome :=
  let raw := mock_search_products keywords
  let all_products := mock_parse_products raw
  .success
    (filter_and_rank_products all_products (some min_rating) (some max_price) (some limit))
    all_products.length keywords

/-- The `/scrape` handler, abstracted over the primary backend's reply.
Validation order, the falsy-default substitution before validation, the
deferred-job early return, the fallback on any primary-path exception and
the final filter/rank call follow main.py lines 66-136. -/
def scrape_products (req : ScrapeReq) (primary : SubmitReply) : ScrapeOutcome :=
  if req.keywords.isEmpty then .httpError 400 "Keywords list cannot be empty"
  else if 10 < req.keywords.length then .httpError 400 "Maximum 10 keywords allowed per request"
  else
    let min_rating := resolveQ req.min_rating 4
    let max_price := resolveQ req.max_price 100
    let limit := resolveZ req.limit 5
    if min_rating < 0 ∨ 5 < min_rating then .httpError 400 "Rating must be between 0 and 5"
    else if max_price ≤ 0 then .httpError 400 "Max price must be greater than 0"
    else if limit ≤ 0 ∨ 50 < limit then .httpError 400 "Limit must be between 1 and 50"
    else
      match submit_classify primary with
      | .deferred snap => .processing snap req.keywords
      | .syncResult raw =>
        match parse_products raw with
        | some all_products =>
          .success
            (filter_and_rank_products all_products (some min_rating) (some max_price) (some limit))
            all_products.length req.keywords
        | none => scrape_fallback req.keywords min_rating max_price limit
      | _ => scrape_fallback req.keywords min_rating max_price limit

/-!
## Concrete fixtures used by the claim theorems
-/

/-- A status query observation is terminal in the spec's sense: HTTP 200
with body status in `{ready, complete, done}` or in `{failed, error}`. -/
def isTerminalStatus (o : PollObs) : Bool :=
  (obsReadyBody o).isSome || obsFailed o

/-- A poll sequence whose status is always `pending`. -/
def pendingQuery : ℕ → PollObs :=
  fun _ => .http 200 (vobj [("status", vstr "pending")])

/-- A poll sequence whose status is always `failed`. -/
def failedQuery : ℕ → PollObs :=
  fun _ => .http 200 (vobj [("status", vstr "failed")])

/-- Tie-break fixture: a product whose display price parses to the falsy
`0.0`. -/
def cxZeroPrice : Product :=
  ⟨"Zero", "https://example.com/zero", "", "$0.00", mkRat 45 10, some 10, some "In Stock", some "Z"⟩

/-- Tie-break fixture: same rating, price parsing to `5.0`. -/
def cxFivePrice : Product :=
  ⟨"Five", "https://example.com/five", "", "$5.00", mkRat 45 10, some 10, some "In Stock", some "F"⟩

/-- Record fields for the C4 counterexample: non-empty title and link but a
list-valued rating (Python `float([1])` raises `TypeError`, uncaught). -/
def cxListRating : List (String × Val) :=
  [("title", vstr "X"), ("url", vstr "Y"), ("rating", varr [vnum 1])]

/-- Spec §8 scenario fixture: rating 4.5, price $45.99. -/
def wHigh : Product :=
  ⟨"High", "https://example.com/high", "", "$45.99", mkRat 45 10, some 1, some "In Stock", some "H"⟩

/-- Spec §8 scenario fixture: rating 4.5, price $18.75. -/
def wMid : Product :=
  ⟨"Mid", "https://example.com/mid", "", "$18.75", mkRat 45 10, some 1, some "In Stock", some "M"⟩

/-- Spec §8 scenario fixture: rating 3.9, price $5.00. -/
def wLow : Product :=
  ⟨"Low", "https://example.com/low", "", "$5.00", mkRat 39 10, some 1, some "In Stock", some "L"⟩

/-- Decidable check that a raw record, if it parses in the mock parser,
yields a product with non-empty title and link and non-negative rating. -/
def mockRecOK (r : Val) : Bool :=
  match mock_item_product r with
  | some q => decide (q.title ≠ "" ∧ q.link ≠ "" ∧ 0 ≤ q.rating)
  | none => true

/-!
# Claim theorems
-/

/-- C3 counterexample: `_extract_price_value "1,234"` does not return 1234.
The single comma with a 3-digit trailing group matches neither rewriting
branch, so the comma stays in the string and `float("1,234")` raises. -/
theorem C3_counterexample : ¬ extract_price_value "1,234" = some (1234 : ℚ) := by
  decide

/-- C3 amended: `_extract_price_value "1,234"` returns `None` (parse
failure), not the thousands interpretation 1234 claimed by the spec. -/
theorem C3_amended_returns_none : extract_price_value "1,234" = none := by
  decide

/-- C9: the four documented PriceParser values: `"$45.99"` ↦ 45.99,
`"1,234.56"` ↦ 1234.56, `"18,75"` ↦ 18.75 (comma as decimal separator,
2 trailing digits), and `""` ↦ `None`. -/
theorem C9_price_parser_values :
    extract_price_value "$45.99" = some (45.99 : ℚ) ∧
    extract_price_value "1,234.56" = some (1234.56 : ℚ) ∧
    extract_price_value "18,75" = some (18.75 : ℚ) ∧
    extract_price_value "" = none := by
  refine ⟨?_, ?_, ?_, rfl⟩
  · have h : extract_price_value "$45.99" = some (mkRat 4599 100) := by decide
    rw [h]; simp only [Option.some.injEq]; norm_num [mkRat]
  · have h : extract_price_value "1,234.56" = some (mkRat 123456 100) := by decide
    rw [h]; simp only [Option.some.injEq]; norm_num [mkRat]
  · have h : extract_price_value "18,75" = some (mkRat 1875 100) := by decide
    rw [h]; simp only [Option.some.injEq]; norm_num [mkRat]

/-- If no attempt in the window observes a ready body, the poll loop runs
all its iterations, sleeping after each one. -/
theorem pollFrom_of_no_ready (query : ℕ → PollObs) :
    ∀ (r a q s : ℕ), (∀ i, a ≤ i → i < a + r → obsReadyBody (query i) = none) →
      pollFrom query r a q s = ⟨none, q + r, s + r * poll_interval⟩ := by
  intro r
  induction r with
  | zero => intro a q s _; simp [pollFrom]
  | succ n ih =>
    intro a q s h
    have h0 : obsReadyBody (query a) = none := h a le_rfl (by omega)
    rw [pollFrom, h0]
    rw [ih (a + 1) (q + 1) (s + poll_interval) (fun i h1 h2 => h i (by omega) (by omega))]
    have e1 : q + 1 + n = q + (n + 1) := by omega
    have e2 : s + poll_interval + n * poll_interval = s + (n + 1) * poll_interval := by
      simp only [poll_interval]; omega
    rw [e1, e2]

/-- C2 (code bug): with the body status `failed` at every attempt, the
poller does *not* stop at the first attempt with a `Failed` outcome.  The
`raise Exception("Snapshot failed ...")` is caught by the loop's own
blanket `except Exception`, which sleeps and continues, so the loop issues
all 30 status queries, sleeps 30 × 5 time units, and ends in the timeout
raise — the spec's required `Failed`-and-stop behaviour never happens. -/
theorem C2_failed_status_is_swallowed :
    obsFailed (failedQuery 1) = true ∧
    (poll_snapshot failedQuery).readyBody = none ∧
    (poll_snapshot failedQuery).queries = 30 ∧
    (poll_snapshot failedQuery).sleepTime = 150 := by
  refine ⟨rfl, ?_, by decide, by decide⟩
  have h := pollFrom_of_no_ready failedQuery max_attempts 1 0 0
    (fun i _ _ => rfl)
  rw [poll_snapshot, h]

/-- C7: when no status query ever yields a terminal body status, the
poller issues exactly `max_attempts` (30) status queries, sleeps
`poll_interval` (5) after every iteration (none of which terminates the
loop), and ends in the timeout raise. -/
theorem C7_always_pending_times_out (query : ℕ → PollObs)
    (h : ∀ i, 1 ≤ i → i ≤ max_attempts → isTerminalStatus (query i) = false) :
    (poll_snapshot query).readyBody = none ∧
    (poll_snapshot query).queries = max_attempts ∧
    (poll_snapshot query).sleepTime = max_attempts * poll_interval := by
  have hn : ∀ i, 1 ≤ i → i < 1 + max_attempts → obsReadyBody (query i) = none := by
    intro i h1 h2
    rcases h' : obsReadyBody (query i) with _ | b
    · rfl
    · exfalso
      have ht := h i h1 (by omega)
      rw [isTerminalStatus, h'] at ht
      simp at ht
  rw [poll_snapshot, pollFrom_of_no_ready query max_attempts 1 0 0 hn]
  exact ⟨rfl, by simp, by simp⟩

/-- Witness for C7 at the constantly-`pending` query sequence. -/
theorem C7_always_pending_times_out_witness :
    (∀ i, 1 ≤ i → i ≤ max_attempts → isTerminalStatus (pendingQuery i) = false) ∧
    ((poll_snapshot pendingQuery).readyBody = none ∧
     (poll_snapshot pendingQuery).queries = max_attempts ∧
     (poll_snapshot pendingQuery).sleepTime = max_attempts * poll_interval) :=
  ⟨fun _ _ _ => rfl, C7_always_pending_times_out pendingQuery (fun _ _ _ => rfl)⟩

/-- C8 counterexample: a reply with success status 201 whose body carries
the `snapshot_id` job-handle marker is classified as a backend failure,
not as deferred — `search_products` accepts only the codes 200 and 202,
not every 2xx code. -/
theorem C8_counterexample :
    submit_classify (.http 201 (vobj [("snapshot_id", vstr "s1")])) = .failBackend 201 ∧
    ∀ v, ¬ submit_classify (.http 201 (vobj [("snapshot_id", vstr "s1")])) = .deferred v := by
  refine ⟨rfl, fun v h => ?_⟩
  rw [show submit_classify (.http 201 (vobj [("snapshot_id", vstr "s1")])) =
      .failBackend 201 from rfl] at h
  exact SubmitOutcome.noConfusion h

/-- C8 amended: replies with status 200 or 202 (the codes the source
accepts, rather than every 2xx code) and a `snapshot_id` marker classify
as deferred with the stored handle; a 200/202 dict body without the marker
is a synchronous result; any other status code, and a transport timeout,
produce a classified failure and never a partial result. -/
theorem C8_submit_classification (code : ℕ) (f : List (String × Val)) (body : Val) :
    ((code = 200 ∨ code = 202) → hasKey f "snapshot_id" = true →
      submit_classify (.http code (vobj f)) = .deferred (getD f "snapshot_id" vnull)) ∧
    ((code = 200 ∨ code = 202) → hasKey f "snapshot_id" = false →
      submit_classify (.http code (vobj f)) = .syncResult (vobj f)) ∧
    (¬ (code = 200 ∨ code = 202) →
      submit_classify (.http code body) = .failBackend code) ∧
    submit_classify .timeout = .failTimeout := by
  refine ⟨fun hc hk => ?_, fun hc hk => ?_, fun hc => ?_, rfl⟩
  · simp [submit_classify, hc, hk]
  · simp [submit_classify, hc, hk]
  · simp [submit_classify, hc]

/-- Witness for C8 at concrete replies: a 202 reply with a handle defers;
a 404 reply is a classified backend failure. -/
theorem C8_submit_classification_witness :
    submit_classify (.http 202 (vobj [("snapshot_id", vstr "abc")])) = .deferred (vstr "abc") ∧
    submit_classify (.http 404 (vstr "not found")) = .failBackend 404 :=
  ⟨(C8_submit_classification 202 [("snapshot_id", vstr "abc")] vnull).1 (Or.inr rfl) rfl,
   (C8_submit_classification 404 [] (vstr "not found")).2.2.1 (by omega)⟩

/-- C10: an explicitly supplied `min_rating=0.0`, `max_price=0.0` or
`limit=0` is falsy and is replaced by the configured default (4.0, 100.0,
5) both inside `filter_and_rank_products` and at the HTTP boundary before
validation, exactly as if the argument were absent. -/
theorem C10_falsy_arguments_become_defaults (products : List Product)
    (mr mp : Option ℚ) (lim : Option ℤ) (kws : List String)
    (primary : SubmitReply) :
    filter_and_rank_products products (some 0) mp lim =
      filter_and_rank_products products none mp lim ∧
    filter_and_rank_products products mr (some 0) lim =
      filter_and_rank_products products mr none lim ∧
    filter_and_rank_products products mr mp (some 0) =
      filter_and_rank_products products mr mp none ∧
    filter_and_rank_products products (some 0) (some 0) (some 0) =
      filter_and_rank_products products (some 4) (some 100) (some 5) ∧
    scrape_products ⟨kws, some 0, mp, lim⟩ primary =
      scrape_products ⟨kws, none, mp, lim⟩ primary ∧
    scrape_products ⟨kws, mr, some 0, lim⟩ primary =
      scrape_products ⟨kws, mr, none, lim⟩ primary ∧
    scrape_products ⟨kws, mr, mp, some 0⟩ primary =
      scrape_products ⟨kws, mr, mp, none⟩ primary :=
  ⟨rfl, rfl, rfl, rfl, rfl, rfl, rfl⟩

/-!
### The sort comparison is a total preorder
-/

theorem pkLE_refl (k : Option ℚ) : pkLE k k = true := by
  cases k <;> simp [pkLE]

theorem pkLE_trans {a b c : Option ℚ} (h1 : pkLE a b = true) (h2 : pkLE b c = true) :
    pkLE a c = true := by
  cases a <;> cases b <;> cases c <;> simp_all [pkLE]
  exact le_trans h1 h2

theorem pkLE_total (a b : Option ℚ) : (pkLE a b || pkLE b a) = true := by
  cases a <;> cases b <;> simp [pkLE]
  exact le_total _ _

theorem prodLE_trans (a b c : Product) (h1 : prodLE a b = true) (h2 : prodLE b c = true) :
    prodLE a c = true := by
  simp only [prodLE, Bool.or_eq_true, Bool.and_eq_true, decide_eq_true_eq] at h1 h2 ⊢
  rcases h1 with h1 | ⟨h1e, h1k⟩
  · rcases h2 with h2 | ⟨h2e, h2k⟩
    · exact Or.inl (lt_trans h2 h1)
    · exact Or.inl (h2e ▸ h1)
  · rcases h2 with h2 | ⟨h2e, h2k⟩
    · exact Or.inl (by rw [h1e]; exact h2)
    · exact Or.inr ⟨h1e.trans h2e, pkLE_trans h1k h2k⟩

theorem prodLE_total (a b : Product) : (prodLE a b || prodLE b a) = true := by
  simp only [prodLE, Bool.or_eq_true, Bool.and_eq_true, decide_eq_true_eq]
  rcases lt_trichotomy a.rating b.rating with h | h | h
  · exact Or.inr (Or.inl h)
  · have ht := pkLE_total (sortPriceKey a) (sortPriceKey b)
    rw [Bool.or_eq_true] at ht
    rcases ht with hk | hk
    · exact Or.inl (Or.inr ⟨h, hk⟩)
    · exact Or.inr (Or.inr ⟨h.symm, hk⟩)
  · exact Or.inl (Or.inl h)

theorem prodLE_eq_true_iff (a b : Product) :
    prodLE a b = true ↔
      (b.rating < a.rating ∨
        (a.rating = b.rating ∧ pkLE (sortPriceKey a) (sortPriceKey b) = true)) := by
  simp [prodLE, Bool.or_eq_true, Bool.and_eq_true, decide_eq_true_eq]

/-- C1 counterexample: two products of equal rating where one price parses
to the falsy `0.0`.  Because the sort key is
`_extract_price_value(...) or float('inf')`, the zero price becomes `inf`
and sorts *after* the 5.00 price, so the output is not tie-broken
ascending by parsed price as the claim states. -/
theorem C1_counterexample :
    filter_and_rank_products [cxZeroPrice, cxFivePrice] (some 4) (some 100) (some 5) =
      [cxFivePrice, cxZeroPrice] ∧
    cxZeroPrice.rating = cxFivePrice.rating ∧
    extract_price_value cxZeroPrice.price = some 0 ∧
    extract_price_value cxFivePrice.price = some 5 ∧
    ¬ List.Pairwise
        (fun a b => b.rating < a.rating ∨
          (a.rating = b.rating ∧
            pkLE (extract_price_value a.price) (extract_price_value b.price) = true))
        (filter_and_rank_products [cxZeroPrice, cxFivePrice] (some 4) (some 100) (some 5)) := by
  decide

/-- C1 amended: for thresholds in the validated ranges, the output of
`filter_and_rank_products` has length at most `limit`; every returned
product has `rating ≥ minRating` and a non-null parsed price `≤ maxPrice`;
the output is sorted descending by rating with ties broken ascending by
the sort key (the parsed price, except that a price parsing to the falsy
`0.0` is keyed as infinity and sorts last in its rating group); and
products of equal rating and equal parsed price keep their input relative
order (stability of CPython's `sorted`). -/
theorem C1_filter_rank_spec (products : List Product) (mr mp : ℚ) (lim : ℤ)
    (hmr0 : 0 ≤ mr) (hmr5 : mr ≤ 5) (hmp : 0 < mp)
    (hlim1 : 1 ≤ lim) (hlim50 : lim ≤ 50) :
    (filter_and_rank_products products (some mr) (some mp) (some lim)).length ≤ lim.toNat ∧
    (∀ p ∈ filter_and_rank_products products (some mr) (some mp) (some lim),
        mr ≤ p.rating ∧ ∃ v, extract_price_value p.price = some v ∧ v ≤ mp) ∧
    List.Pairwise
      (fun a b => b.rating < a.rating ∨
        (a.rating = b.rating ∧ pkLE (sortPriceKey a) (sortPriceKey b) = true))
      (filter_and_rank_products products (some mr) (some mp) (some lim)) ∧
    ∀ (r v : ℚ),
      ((filter_and_rank_products products (some mr) (some mp) (some lim)).filter
          (fun p => decide (p.rating = r) && decide (extract_price_value p.price = some v))).Sublist
        (products.filter
          (fun p => decide (p.rating = r) && decide (extract_price_value p.price = some v))) := by
  have hmp' : resolveQ (some mp) 100 = mp := by
    simp [resolveQ, ne_of_gt hmp]
  have hlim' : resolveZ (some lim) 5 = lim := by
    have h0 : lim ≠ 0 := by omega
    simp [resolveZ, h0]
  have hmrle : mr ≤ resolveQ (some mr) 4 := by
    rw [show resolveQ (some mr) 4 = if mr = 0 then 4 else mr from rfl]
    split
    · next h => rw [h]; norm_num
    · exact le_refl mr
  cases products with
  | nil =>
    refine ⟨by simp [filter_and_rank_products], ?_, ?_, ?_⟩
    · intro p hp
      simp [filter_and_rank_products] at hp
    · simp [filter_and_rank_products]
    · intro r v
      simp [filter_and_rank_products]
  | cons x xs =>
    haveI : IsTotal Product prodRel :=
      ⟨fun a b => by have h := prodLE_total a b; rwa [Bool.or_eq_true] at h⟩
    haveI : IsTrans Product prodRel := ⟨fun a b c => prodLE_trans a b c⟩
    have hred : filter_and_rank_products (x :: xs) (some mr) (some mp) (some lim) =
        (List.insertionSort prodRel (((x :: xs).filter (ratingPred (resolveQ (some mr) 4))).filter
            (pricePred (resolveQ (some mp) 100)))).take (resolveZ (some lim) 5).toNat := by
      rw [show filter_and_rank_products (x :: xs) (some mr) (some mp) (some lim) =
          pySlice (List.insertionSort prodRel
            (((x :: xs).filter (ratingPred (resolveQ (some mr) 4))).filter
              (pricePred (resolveQ (some mp) 100)))) (resolveZ (some lim) 5) from rfl]
      rw [pySlice, if_pos (by rw [hlim']; omega)]
    rw [hred, hmp', hlim']
    set L1 := (x :: xs).filter (ratingPred (resolveQ (some mr) 4)) with hL1
    set L2 := L1.filter (pricePred mp) with hL2
    set S := List.insertionSort prodRel L2 with hS
    refine ⟨List.length_take_le _ _, ?_, ?_, ?_⟩
    · intro p hp
      have hpS : p ∈ S := List.mem_of_mem_take hp
      have hpL2 : p ∈ L2 := (List.mem_insertionSort prodRel).mp hpS
      obtain ⟨hpL1, hpc⟩ := List.mem_filter.mp hpL2
      obtain ⟨hpprod, hpr⟩ := List.mem_filter.mp hpL1
      refine ⟨le_trans hmrle (of_decide_eq_true hpr), ?_⟩
      cases h : extract_price_value p.price with
      | none =>
        rw [pricePred, h] at hpc
        exact absurd hpc (by simp)
      | some v =>
        rw [pricePred, h] at hpc
        exact ⟨v, rfl, of_decide_eq_true hpc⟩
    · have hs : List.Pairwise prodRel S := List.sorted_insertionSort prodRel L2
      have hst := List.Pairwise.sublist (List.take_sublist lim.toNat S) hs
      exact hst.imp (fun h => (prodLE_eq_true_iff _ _).mp h)
    · intro r v
      set q := fun p : Product =>
        decide (p.rating = r) && decide (extract_price_value p.price = some v) with hq
      have hequiv : ∀ a, q a = true → ∀ b, q b = true → prodLE a b = true := by
        intro a ha b hb
        rw [hq] at ha hb
        simp only [Bool.and_eq_true, decide_eq_true_eq] at ha hb
        obtain ⟨har, hap⟩ := ha
        obtain ⟨hbr, hbp⟩ := hb
        have hkey : sortPriceKey a = sortPriceKey b := by
          rw [sortPriceKey, sortPriceKey, hap, hbp]
        simp only [prodLE, Bool.or_eq_true, Bool.and_eq_true, decide_eq_true_eq]
        exact Or.inr ⟨har.trans hbr.symm, by rw [hkey]; exact pkLE_refl _⟩
      have hpair : (L2.filter q).Pairwise prodRel :=
        List.pairwise_of_forall_mem_list
          (fun a ha b hb => hequiv a (List.of_mem_filter ha) b (List.of_mem_filter hb))
      have hsub1 : (L2.filter q).Sublist S :=
        List.sublist_insertionSort hpair (List.filter_sublist L2)
      have hperm : (S.filter q).Perm (L2.filter q) :=
        (List.perm_insertionSort prodRel L2).filter q
      have hfix : (L2.filter q).filter q = L2.filter q :=
        List.filter_eq_self.mpr (fun a ha => List.of_mem_filter ha)
      have hsub2 : (L2.filter q).Sublist (S.filter q) := by
        have h := List.Sublist.filter q hsub1
        rwa [hfix] at h
      have heq : S.filter q = L2.filter q :=
        (List.Sublist.eq_of_length hsub2 hperm.length_eq.symm).symm
      have t1 : ((S.take lim.toNat).filter q).Sublist (S.filter q) :=
        List.Sublist.filter q (List.take_sublist lim.toNat S)
      have t2 : (L2.filter q).Sublist ((x :: xs).filter q) :=
        List.Sublist.filter q ((List.filter_sublist L1).trans (List.filter_sublist (x :: xs)))
      rw [heq] at t1
      exact t1.trans t2

/-- Witness for C1 at the spec §8 scenario (ratings 4.5/4.5/3.9, prices
$45.99/$18.75/$5.00, thresholds 4.0/50/5). -/
theorem C1_filter_rank_spec_witness :
    ((0 : ℚ) ≤ 4 ∧ (4 : ℚ) ≤ 5 ∧ (0 : ℚ) < 50 ∧ (1 : ℤ) ≤ 5 ∧ (5 : ℤ) ≤ 50) ∧
    ((filter_and_rank_products [wHigh, wMid, wLow] (some 4) (some 50) (some 5)).length ≤
        (5 : ℤ).toNat ∧
     (∀ p ∈ filter_and_rank_products [wHigh, wMid, wLow] (some 4) (some 50) (some 5),
        (4 : ℚ) ≤ p.rating ∧ ∃ v, extract_price_value p.price = some v ∧ v ≤ 50) ∧
     List.Pairwise
       (fun a b => b.rating < a.rating ∨
         (a.rating = b.rating ∧ pkLE (sortPriceKey a) (sortPriceKey b) = true))
       (filter_and_rank_products [wHigh, wMid, wLow] (some 4) (some 50) (some 5)) ∧
     ∀ (r v : ℚ),
       ((filter_and_rank_products [wHigh, wMid, wLow] (some 4) (some 50) (some 5)).filter
           (fun p => decide (p.rating = r) && decide (extract_price_value p.price = some v))).Sublist
         ([wHigh, wMid, wLow].filter
           (fun p => decide (p.rating = r) && decide (extract_price_value p.price = some v)))) :=
  ⟨⟨by norm_num, by norm_num, by norm_num, by norm_num, by norm_num⟩,
   C1_filter_rank_spec [wHigh, wMid, wLow] 4 50 5
     (by norm_num) (by norm_num) (by norm_num) (by norm_num) (by norm_num)⟩

example :
    filter_and_rank_products [wHigh, wMid, wLow] (some 4) (some 50) (some 5) =
      [wMid, wHigh] := by decide

/-- C6: for a validated request, any classified error from the primary
submit step makes the orchestrator return a *success* response built from
the statically-defined fallback source run through the same filter/rank
stage — never a hard failure. -/
theorem C6_primary_error_falls_back (req : ScrapeReq) (reply : SubmitReply)
    (hk1 : req.keywords ≠ []) (hk2 : req.keywords.length ≤ 10)
    (hmr : ¬(resolveQ req.min_rating 4 < 0 ∨ 5 < resolveQ req.min_rating 4))
    (hmp : ¬(resolveQ req.max_price 100 ≤ 0))
    (hlim : ¬(resolveZ req.limit 5 ≤ 0 ∨ 50 < resolveZ req.limit 5))
    (herr : isClassifiedError (submit_classify reply) = true) :
    scrape_products req reply =
      ScrapeOutcome.success
        (filter_and_rank_products (mock_parse_products (mock_search_products req.keywords))
          (some (resolveQ req.min_rating 4)) (some (resolveQ req.max_price 100))
          (some (resolveZ req.limit 5)))
        (mock_parse_products (mock_search_products req.keywords)).length
        req.keywords := by
  have hkE : req.keywords.isEmpty = false := by
    cases hks : req.keywords with
    | nil => exact absurd hks hk1
    | cons a l => rfl
  simp only [scrape_products, hkE]
  rw [if_neg (by simp), if_neg (by omega)]
  rw [if_neg hmr, if_neg hmp, if_neg hlim]
  cases hcl : submit_classify reply with
  | deferred v => rw [hcl] at herr; exact absurd herr (by simp [isClassifiedError])
  | syncResult v => rw [hcl] at herr; exact absurd herr (by simp [isClassifiedError])
  | failTimeout => rfl
  | failBackend c => rfl
  | failParse => rfl

/-- Witness for C6: one keyword, primary reply HTTP 500. -/
theorem C6_primary_error_falls_back_witness :
    ((["tap"] : List String) ≠ [] ∧ (["tap"] : List String).length ≤ 10) ∧
    scrape_products ⟨["tap"], none, none, none⟩ (.http 500 vnull) =
      ScrapeOutcome.success
        (filter_and_rank_products (mock_parse_products (mock_search_products ["tap"]))
          (some (resolveQ none 4)) (some (resolveQ none 100)) (some (resolveZ none 5)))
        (mock_parse_products (mock_search_products ["tap"])).length
        ["tap"] :=
  ⟨⟨by simp, by simp⟩,
   C6_primary_error_falls_back ⟨["tap"], none, none, none⟩ (.http 500 vnull)
     (by simp) (by simp) (by decide) (by decide) (by decide) rfl⟩

/-- C4 counterexample: a record with non-empty resolved title and link but
a list-valued rating is rejected (`float([1])` raises `TypeError`, which
the enclosing `except` turns into `None`), so "null iff title or link
empty" fails in the only-if direction. -/
theorem C4_counterexample :
    extract_product_data (vobj cxListRating) = none ∧
    resTitle cxListRating = vstr "X" ∧ truthy (resTitle cxListRating) = true ∧
    resLink cxListRating = vstr "Y" ∧ truthy (resLink cxListRating) = true :=
  ⟨rfl, rfl, rfl, rfl, rfl⟩

/-- C4 amended: a falsy resolved title or link always rejects the record;
conversely, when title and link are truthy and every per-field coercion
succeeds (which holds whenever the record's values are JSON scalars with
strings in the string-typed slots — only non-scalar values such as lists
or dicts, or `None`/non-strings in required string slots, can make one
fail), a Product is returned carrying exactly the degraded field values. -/
theorem C4_reject_iff (f : List (String × Val)) :
    ((truthy (resTitle f) = false ∨ truthy (resLink f) = false) →
      extract_product_data (vobj f) = none) ∧
    (∀ (t l img pr : String) (rating : ℚ) (rc : Option ℤ) (av an : Option String),
      truthy (resTitle f) = true → truthy (resLink f) = true →
      coerceStr (resTitle f) = some t → coerceStr (resLink f) = some l →
      coerceStr (resImage f) = some img → coerceStr (resPrice f) = some pr →
      ratingOfRaw (resRating f) = some rating → reviewOfRaw (resReview f) = some rc →
      coerceOptStr (resAvail f) = some av → coerceOptStr (resAsin f) = some an →
      extract_product_data (vobj f) = some ⟨t, l, img, pr, rating, rc, av, an⟩) := by
  constructor
  · intro h
    rcases hr : ratingOfRaw (resRating f) with _ | rating
    · simp [extract_product_data, hr]
    · rcases hw : reviewOfRaw (resReview f) with _ | rc
      · simp [extract_product_data, hr, hw]
      · rcases h with h | h <;> simp [extract_product_data, hr, hw, h]
  · intro t l img pr rating rc av an ht hl hct hcl hci hcp hcr hcw hca hcn
    simp [extract_product_data, hcr, hcw, ht, hl, hct, hcl, hci, hcp, hca, hcn]

/-- Witness for C4: a record whose rating and review-count texts fail to
parse degrades them to 0 rather than rejecting; a record with an empty
resolved title is rejected. -/
theorem C4_reject_iff_witness :
    extract_product_data (vobj [("title", vstr "X"), ("url", vstr "Y"),
        ("rating", vstr "bad"), ("review_count", vstr "n/a")]) =
      some ⟨"X", "Y", "", "", 0, some 0, some "Unknown", some ""⟩ ∧
    extract_product_data (vobj [("name", vstr "")]) = none :=
  ⟨(C4_reject_iff [("title", vstr "X"), ("url", vstr "Y"),
      ("rating", vstr "bad"), ("review_count", vstr "n/a")]).2
      "X" "Y" "" "" 0 (some 0) (some "Unknown") (some "")
      rfl rfl rfl rfl rfl rfl rfl rfl rfl rfl,
   (C4_reject_iff [("name", vstr "")]).1 (Or.inl rfl)⟩

/-- A required-string-slot coercion only succeeds on the string itself. -/
theorem coerceStr_some {v : Val} {s : String} (h : coerceStr v = some s) : v = vstr s := by
  cases v <;> simp_all [coerceStr]

/-- Every product the primary normalizer returns has a non-empty title and
a non-empty link: the construction only happens after the falsy check on
the resolved title and link, and the string coercion preserves them. -/
theorem extract_some_nonempty {v : Val} {p : Product}
    (h : extract_product_data v = some p) : p.title ≠ "" ∧ p.link ≠ "" := by
  cases v with
  | vobj f =>
    simp only [extract_product_data] at h
    rcases hr : ratingOfRaw (resRating f) with _ | rating
    · rw [hr] at h; exact Option.noConfusion h
    simp only [hr] at h
    rcases hw : reviewOfRaw (resReview f) with _ | rc
    · rw [hw] at h; exact Option.noConfusion h
    simp only [hw] at h
    by_cases htl : (!truthy (resTitle f) || !truthy (resLink f)) = true
    · rw [if_pos htl] at h; exact Option.noConfusion h
    · rw [if_neg htl] at h
      simp only [Bool.or_eq_true, Bool.not_eq_true', not_or] at htl
      obtain ⟨ht, hl⟩ := htl
      rcases hct : coerceStr (resTitle f) with _ | t
      · rw [hct] at h; exact Option.noConfusion h
      simp only [hct] at h
      rcases hcl : coerceStr (resLink f) with _ | l
      · rw [hcl] at h; exact Option.noConfusion h
      simp only [hcl] at h
      rcases hci : coerceStr (resImage f) with _ | img
      · rw [hci] at h; exact Option.noConfusion h
      simp only [hci] at h
      rcases hcp : coerceStr (resPrice f) with _ | pr
      · rw [hcp] at h; exact Option.noConfusion h
      simp only [hcp] at h
      rcases hca : coerceOptStr (resAvail f) with _ | av
      · rw [hca] at h; exact Option.noConfusion h
      simp only [hca] at h
      rcases hcn : coerceOptStr (resAsin f) with _ | an
      · rw [hcn] at h; exact Option.noConfusion h
      simp only [hcn, Option.some.injEq] at h
      constructor
      · have ht' := coerceStr_some hct
        rw [ht'] at ht
        rw [← h]
        simpa [truthy] using ht
      · have hl' := coerceStr_some hcl
        rw [hl'] at hl
        rw [← h]
        simpa [truthy] using hl
  | vnull => cases h
  | vbool b => cases h
  | vnum q => cases h
  | vstr s => cases h
  | varr l => cases h

/-- Membership in an `entriesGoWith` run comes from the accumulator or
from a successful per-record parse. -/
theorem entriesGoWith_mem (itemF : Val → Option Product) :
    ∀ (es : List Val) (acc out : List Product), entriesGoWith itemF es acc = some out →
      ∀ p ∈ out, p ∈ acc ∨ ∃ v, itemF v = some p := by
  intro es
  induction es with
  | nil =>
    intro acc out h p hp
    rw [entriesGoWith] at h
    cases h
    exact Or.inl hp
  | cons kd rest ih =>
    intro acc out h p hp
    cases kd with
    | vobj f =>
      simp only [entriesGoWith] at h
      by_cases hk : hasKey f "results" = true
      · rw [if_pos hk] at h
        rcases hit : iterItems (getD f "results" vnull) with _ | items
        · rw [hit] at h; exact Option.noConfusion h
        · simp only [hit] at h
          rcases ih _ _ h p hp with hacc | hx
          · rcases List.mem_append.mp hacc with h1 | h2
            · exact Or.inl h1
            · obtain ⟨v, hv, hvp⟩ := List.mem_filterMap.mp h2
              exact Or.inr ⟨v, hvp⟩
          · exact Or.inr hx
      · rw [if_neg hk] at h
        exact ih _ _ h p hp
    | varr l =>
      simp only [entriesGoWith] at h
      rcases ih _ _ h p hp with hacc | hx
      · rcases List.mem_append.mp hacc with h1 | h2
        · exact Or.inl h1
        · obtain ⟨v, hv, hvp⟩ := List.mem_filterMap.mp h2
          exact Or.inr ⟨v, hvp⟩
      · exact Or.inr hx
    | vnull => exact ih _ _ h p hp
    | vbool b => exact ih _ _ h p hp
    | vnum q => exact ih _ _ h p hp
    | vstr s => exact ih _ _ h p hp

/-- Primary path: every product of a `parse_products` result set has a
non-empty title and link. -/
theorem parse_products_nonempty (raw : Val) (l : List Product)
    (h : parse_products raw = some l) : ∀ p ∈ l, p.title ≠ "" ∧ p.link ≠ "" := by
  intro p hp
  rcases hc : pyContains raw "snapshot_id" with _ | b
  · simp only [parse_products, hc] at h
    exact Option.noConfusion h
  · cases b with
    | true =>
      simp only [parse_products, hc, Option.some.injEq] at h
      rw [← h] at hp
      cases hp
    | false =>
      cases raw with
      | vobj f =>
        simp only [parse_products, hc] at h
        by_cases hk : hasKey f "data" = true
        · rw [if_pos hk] at h
          rcases hit : iterItems (getD f "data" vnull) with _ | entries
          · rw [hit] at h
            simp only [Option.some.injEq] at h
            rw [← h] at hp; cases hp
          · simp only [hit, Option.some.injEq] at h
            rw [← h] at hp
            rcases hgo : entriesGoWith extract_product_data entries [] with _ | out
            · rw [hgo] at hp; cases hp
            · rw [hgo] at hp
              rcases entriesGoWith_mem extract_product_data entries [] out hgo p hp with h0 | ⟨v, hv⟩
              · cases h0
              · exact extract_some_nonempty hv
        · rw [if_neg hk] at h
          simp only [Option.some.injEq] at h
          rw [← h] at hp; cases hp
      | vnull =>
        simp only [parse_products, hc, Option.some.injEq] at h
        rw [← h] at hp; cases hp
      | vbool bb =>
        simp only [parse_products, hc, Option.some.injEq] at h
        rw [← h] at hp; cases hp
      | vnum q =>
        simp only [parse_products, hc, Option.some.injEq] at h
        rw [← h] at hp; cases hp
      | vstr s =>
        simp only [parse_products, hc, Option.some.injEq] at h
        rw [← h] at hp; cases hp
      | varr a =>
        simp only [parse_products, hc, Option.some.injEq] at h
        rw [← h] at hp; cases hp

/-- Every static mock record that parses yields a product with non-empty
title, non-empty link and non-negative rating. -/
theorem mock_static_records_ok : ∀ r ∈ mock_products, mockRecOK r = true := by
  decide

/-- Fallback pipeline: every product parsed out of the mock search output
has non-empty title and link and a non-negative rating. -/
theorem mock_pipeline_products (kws : List String) (p : Product)
    (hp : p ∈ mock_parse_products (mock_search_products kws)) :
    p.title ≠ "" ∧ p.link ≠ "" ∧ 0 ≤ p.rating := by
  have hred : mock_parse_products (mock_search_products kws) =
      (if (mock_products.filter
            (fun r => kws.any (fun kw => lowerContains kw (titleStr r)))).isEmpty
       then mock_products
       else mock_products.filter
            (fun r => kws.any (fun kw => lowerContains kw (titleStr r)))).filterMap
        mock_item_product := rfl
  rw [hred] at hp
  obtain ⟨r, hrL, hrp⟩ := List.mem_filterMap.mp hp
  have hrm : r ∈ mock_products := by
    by_cases hf : (mock_products.filter
        (fun r => kws.any (fun kw => lowerContains kw (titleStr r)))).isEmpty = true
    · rwa [if_pos hf] at hrL
    · rw [if_neg hf] at hrL
      exact (List.mem_filter.mp hrL).1
  have hok := mock_static_records_ok r hrm
  simp only [mockRecOK, hrp] at hok
  exact of_decide_eq_true hok

/-- C5 counterexample: (a) the primary normalizer passes a negative source
rating straight through, so `rating ≥ 0` does not hold for its result
sets; (b) the mock parser applied to a record set containing the empty
record constructs a Product with empty title and link, so the non-empty
invariant does not hold of `MockDataService.parse_products` on arbitrary
raw input. -/
theorem C5_counterexample :
    extract_product_data (vobj [("title", vstr "X"), ("url", vstr "Y"), ("rating", vnum (-3))]) =
      some ⟨"X", "Y", "", "", -3, some 0, some "Unknown", some ""⟩ ∧
    ((-3 : ℚ) < 0) ∧
    mock_parse_products (vobj [("data", varr [vobj [("results", varr [vobj []])]])]) =
      [⟨"", "", "", "", 0, some 0, some "Unknown", some ""⟩] := by
  decide

/-- C5 amended: every Product in a result set of the primary normalization
path has non-empty title and link (but its rating may be negative: a
negative source rating is passed through); every Product produced by the
fallback pipeline (mock search feeding the mock parser) has non-empty
title and link and a non-negative rating. -/
theorem C5_result_set_invariants :
    (∀ raw l p, parse_products raw = some l → p ∈ l → p.title ≠ "" ∧ p.link ≠ "") ∧
    (∀ kws p, p ∈ mock_parse_products (mock_search_products kws) →
      p.title ≠ "" ∧ p.link ≠ "" ∧ 0 ≤ p.rating) :=
  ⟨fun raw l p h hp => parse_products_nonempty raw l h p hp,
   fun kws p hp => mock_pipeline_products kws p hp⟩

/-- Witness for C5: a concrete primary payload and the keyword `tap`
through the mock pipeline. -/
theorem C5_result_set_invariants_witness :
    ((Product.mk "T" "L" "" "" 0 (some 0) (some "Unknown") (some "")).title ≠ "" ∧
     (Product.mk "T" "L" "" "" 0 (some 0) (some "Unknown") (some "")).link ≠ "") ∧
    ((Product.mk "Professional Tap and Die Set - 40 Piece"
        "https://www.amazon.com/dp/B08CVSLHQD"
        "https://images-na.ssl-images-amazon.com/images/I/61YVz1vKJZL._AC_SL1500_.jpg"
        "$45.99" (mkRat 45 10) (some 1234) (some "In Stock") (some "B08CVSLHQD")).title ≠ "" ∧
     (Product.mk "Professional Tap and Die Set - 40 Piece"
        "https://www.amazon.com/dp/B08CVSLHQD"
        "https://images-na.ssl-images-amazon.com/images/I/61YVz1vKJZL._AC_SL1500_.jpg"
        "$45.99" (mkRat 45 10) (some 1234) (some "In Stock") (some "B08CVSLHQD")).link ≠ "" ∧
     0 ≤ (Product.mk "Professional Tap and Die Set - 40 Piece"
        "https://www.amazon.com/dp/B08CVSLHQD"
        "https://images-na.ssl-images-amazon.com/images/I/61YVz1vKJZL._AC_SL1500_.jpg"
        "$45.99" (mkRat 45 10) (some 1234) (some "In Stock") (some "B08CVSLHQD")).rating) :=
  ⟨C5_result_set_invariants.1
      (vobj [("data", varr [vobj [("results", varr [vobj [("title", vstr "T"), ("url", vstr "L")]])]])])
      [⟨"T", "L", "", "", 0, some 0, some "Unknown", some ""⟩]
      ⟨"T", "L", "", "", 0, some 0, some "Unknown", some ""⟩
      rfl (List.mem_singleton.mpr rfl),
   C5_result_set_invariants.2 ["tap"]
      ⟨"Professional Tap and Die Set - 40 Piece",
       "https://www.amazon.com/dp/B08CVSLHQD",
       "https://images-na.ssl-images-amazon.com/images/I/61YVz1vKJZL._AC_SL1500_.jpg",
       "$45.99", mkRat 45 10, some 1234, some "In Stock", some "B08CVSLHQD"⟩
      (by decide)⟩

end HomeEase
